import Mathlib

/-!
QuickDesk ticket lifecycle: a shallow embedding of the ticket controller
(server/controllers/ticketController.js), the ticket schema
(server/models/Ticket.js) and the mail service (server/services/emailService.js),
with theorems about the voting rules, role-scoped listing and ticket updates.

Mongo ObjectIds are modelled as `String` (the controller compares them with
`toString()` throughout).  A handler returning `res.status(code).json(msg)` on a
failure path is modelled as `Except (Nat × String) _`; an `Except.error` result
means the handler returned before any `save`/`findByIdAndUpdate`, so the stored
ticket is unchanged.
-/

namespace QuickDesk

/-- User roles (User schema: role is one of end-user, support-agent, admin). -/
inductive Role
  | endUser
  | supportAgent
  | admin
deriving DecidableEq, Repr

/-- The fields of a User document that the ticket controller reads. -/
structure User where
  id : String
  username : String
  email : String
  role : Role
deriving DecidableEq, Repr

/-- A Category document (only its identity and name are used here). -/
structure Category where
  id : String
  name : String
deriving DecidableEq, Repr

/-- A comment subdocument of a ticket (Ticket.js comments array). -/
structure Comment where
  text : String
  commentedBy : String
  createdAt : Nat
deriving DecidableEq, Repr

/-- A Ticket document (server/models/Ticket.js).  `status` is kept as a raw
string exactly as the controller handles it; timestamps are abstract ticks. -/
structure Ticket where
  id : String
  subject : String
  description : String
  category : String
  createdBy : String
  assignedTo : Option String
  status : String
  priority : String
  comments : List Comment
  attachments : List String
  upvotes : List String
  downvotes : List String
  createdAt : Nat
  updatedAt : Nat
deriving DecidableEq, Repr

/-- An HTTP error response: status code plus message. -/
abbrev ErrResp := Nat × String

/-- Removal of one user id from a vote list, as in
`ticket.upvotes.filter(userId => userId.toString() !== req.user._id.toString())`. -/
def removeVote (l : List String) (uid : String) : List String :=
  l.filter (fun v => v ≠ uid)

/-- The mutation performed by upvoteTicket (part_017 lines 408-423) once the
creator check has passed: drop the voter from `downvotes` when present, then
toggle the voter's membership in `upvotes` (push when absent, filter out when
present).  The two steps touch disjoint fields, so they are written as two
independent field updates. -/
def applyUpvote (t : Ticket) (uid : String) : Ticket :=
  let newDown := if uid ∈ t.downvotes then removeVote t.downvotes uid else t.downvotes
  let newUp := if uid ∉ t.upvotes then t.upvotes ++ [uid] else removeVote t.upvotes uid
  { t with upvotes := newUp, downvotes := newDown }

/-- The mutation performed by downvoteTicket (part_017 lines 448-463), the
mirror image of `applyUpvote`. -/
def applyDownvote (t : Ticket) (uid : String) : Ticket :=
  let newUp := if uid ∈ t.upvotes then removeVote t.upvotes uid else t.upvotes
  let newDown := if uid ∉ t.downvotes then t.downvotes ++ [uid] else removeVote t.downvotes uid
  { t with upvotes := newUp, downvotes := newDown }

/-- upvoteTicket (part_017 lines 396-427) for an existing ticket: a voter who
created the ticket is rejected with status 400 before any mutation; otherwise
the vote lists are updated and saved. -/
def upvoteTicket (user : User) (t : Ticket) : Except ErrResp Ticket :=
  if t.createdBy = user.id then
    .error (400, "You cannot upvote your own ticket")
  else
    .ok (applyUpvote t user.id)

/-- downvoteTicket (part_017 lines 436-467) for an existing ticket. -/
def downvoteTicket (user : User) (t : Ticket) : Except ErrResp Ticket :=
  if t.createdBy = user.id then
    .error (400, "You cannot downvote your own ticket")
  else
    .ok (applyDownvote t user.id)

/-- One vote request: a PUT to /tickets/:id/upvote or /tickets/:id/downvote. -/
inductive VoteAct
  | up
  | down
deriving DecidableEq, Repr

/-- Effect of one vote request on the stored ticket: an error response leaves
the stored document untouched. -/
def voteStep (user : User) (t : Ticket) (a : VoteAct) : Ticket :=
  match a with
  | .up =>
    match upvoteTicket user t with
    | .ok t' => t'
    | .error _ => t
  | .down =>
    match downvoteTicket user t with
    | .ok t' => t'
    | .error _ => t

/-- Stored ticket after a sequence of vote requests by one user. -/
def runVotes (user : User) (t : Ticket) (acts : List VoteAct) : Ticket :=
  acts.foldl (voteStep user) t

/-- The vote-exclusivity invariant: `uid` is not in both vote lists. -/
abbrev noBothVotes (t : Ticket) (uid : String) : Prop :=
  ¬ (uid ∈ t.upvotes ∧ uid ∈ t.downvotes)

theorem mem_removeVote {l : List String} {uid v : String} :
    v ∈ removeVote l uid ↔ v ∈ l ∧ v ≠ uid := by
  simp [removeVote]

theorem self_not_mem_removeVote (l : List String) (uid : String) :
    uid ∉ removeVote l uid := by
  simp [mem_removeVote]

theorem removeVote_eq_self {l : List String} {uid : String} (h : uid ∉ l) :
    removeVote l uid = l := by
  refine List.filter_eq_self.mpr ?_
  intro a ha
  simp only [decide_eq_true_eq]
  exact fun hv => h (hv ▸ ha)

theorem removeVote_append (l1 l2 : List String) (uid : String) :
    removeVote (l1 ++ l2) uid = removeVote l1 uid ++ removeVote l2 uid := by
  simp [removeVote]

theorem applyUpvote_upvotes (t : Ticket) (uid : String) :
    (applyUpvote t uid).upvotes =
      if uid ∉ t.upvotes then t.upvotes ++ [uid] else removeVote t.upvotes uid := rfl

theorem applyUpvote_downvotes (t : Ticket) (uid : String) :
    (applyUpvote t uid).downvotes =
      if uid ∈ t.downvotes then removeVote t.downvotes uid else t.downvotes := rfl

theorem applyUpvote_createdBy (t : Ticket) (uid : String) :
    (applyUpvote t uid).createdBy = t.createdBy := rfl

theorem applyDownvote_createdBy (t : Ticket) (uid : String) :
    (applyDownvote t uid).createdBy = t.createdBy := rfl

theorem applyUpvote_not_down (t : Ticket) (uid : String) :
    uid ∉ (applyUpvote t uid).downvotes := by
  rw [applyUpvote_downvotes]
  by_cases h : uid ∈ t.downvotes
  · simp only [if_pos h]
    exact self_not_mem_removeVote _ _
  · simp only [if_neg h]
    exact h

theorem applyDownvote_not_up (t : Ticket) (uid : String) :
    uid ∉ (applyDownvote t uid).upvotes := by
  show uid ∉ (if uid ∈ t.upvotes then removeVote t.upvotes uid else t.upvotes)
  by_cases h : uid ∈ t.upvotes
  · simp only [if_pos h]
    exact self_not_mem_removeVote _ _
  · simp only [if_neg h]
    exact h

theorem voteStep_createdBy (user : User) (t : Ticket) (a : VoteAct) :
    (voteStep user t a).createdBy = t.createdBy := by
  cases a <;> simp only [voteStep, upvoteTicket, downvoteTicket] <;>
    by_cases h : t.createdBy = user.id <;> simp [h] <;> rfl

theorem voteStep_noBoth (user : User) (t : Ticket) (a : VoteAct)
    (h : noBothVotes t user.id) : noBothVotes (voteStep user t a) user.id := by
  cases a with
  | up =>
    simp only [voteStep, upvoteTicket]
    by_cases hc : t.createdBy = user.id
    · simpa [hc] using h
    · simp only [hc, if_false]
      exact fun hcon => applyUpvote_not_down t user.id hcon.2
  | down =>
    simp only [voteStep, downvoteTicket]
    by_cases hc : t.createdBy = user.id
    · simpa [hc] using h
    · simp only [hc, if_false]
      exact fun hcon => applyDownvote_not_up t user.id hcon.1

theorem runVotes_cons (user : User) (t : Ticket) (a : VoteAct) (rest : List VoteAct) :
    runVotes user t (a :: rest) = runVotes user (voteStep user t a) rest := rfl

/-- C1: for every ticket and every user who is not the ticket's creator, after
any sequence of upvote/downvote requests by that user, the user is never a
member of both the upvote and the downvote list (the invariant holding
initially, as it does for a freshly created ticket whose vote lists are empty). -/
theorem runVotes_never_both (user : User) (t : Ticket) (acts : List VoteAct)
    (h1 : user.id ≠ t.createdBy) (h2 : noBothVotes t user.id) :
    noBothVotes (runVotes user t acts) user.id := by
  induction acts generalizing t with
  | nil => exact h2
  | cons a rest ih =>
    rw [runVotes_cons]
    exact ih (voteStep user t a)
      (by rw [voteStep_createdBy]; exact h1)
      (voteStep_noBoth user t a h2)

/-- A non-creator voter used in the concrete instances below. -/
def carol : User := { id := "u2", username := "carol", email := "carol@example.com", role := .endUser }

/-- The creator of `demoTicket`, an admin (votes on own tickets are rejected
regardless of role). -/
def alice : User := { id := "u1", username := "alice", email := "alice@example.com", role := .admin }

/-- A concrete ticket created by `alice` on which `carol` has a standing
downvote. -/
def demoTicket : Ticket :=
  { id := "t1", subject := "Printer down", description := "It broke",
    category := "c1", createdBy := "u1", assignedTo := none, status := "Open",
    priority := "Low", comments := [], attachments := [], upvotes := [],
    downvotes := ["u2"], createdAt := 1, updatedAt := 1 }

/-- Witness for C1 at a concrete input. -/
theorem runVotes_never_both_witness :
    noBothVotes (runVotes carol demoTicket [.up, .down, .up]) carol.id :=
  runVotes_never_both carol demoTicket [.up, .down, .up] (by decide) (by decide)

/-- Ticket after carol's first upvote of `demoTicket`. -/
def demoTicketUp1 : Ticket := applyUpvote demoTicket carol.id

/-- Ticket after carol's second upvote in a row. -/
def demoTicketUp2 : Ticket := applyUpvote demoTicketUp1 carol.id

/-- C3 counterexample: carol holds a downvote on `demoTicket`; both upvote calls
succeed, yet the final downvote list is empty while the original was not — the
pre-vote state is not restored. -/
theorem upvote_twice_cex :
    upvoteTicket carol demoTicket = .ok demoTicketUp1 ∧
    upvoteTicket carol demoTicketUp1 = .ok demoTicketUp2 ∧
    demoTicketUp2.downvotes ≠ demoTicket.downvotes := by
  refine ⟨rfl, rfl, ?_⟩
  decide

/-- C3 amended: two successive successful upvote calls by a non-creator restore
the membership of the upvote list, and leave the downvote list equal to the
original with the voter removed; the downvote list (hence the full vote state,
membership-wise) is restored exactly when the voter held no prior downvote. -/
theorem upvote_twice_amended (user : User) (t t1 t2 : Ticket)
    (hc : t.createdBy ≠ user.id)
    (h1 : upvoteTicket user t = .ok t1)
    (h2 : upvoteTicket user t1 = .ok t2) :
    (∀ v, v ∈ t2.upvotes ↔ v ∈ t.upvotes) ∧
    t2.downvotes = removeVote t.downvotes user.id ∧
    (user.id ∉ t.downvotes → t2.downvotes = t.downvotes) := by
  simp only [upvoteTicket, if_neg hc, Except.ok.injEq] at h1
  have hc1 : t1.createdBy ≠ user.id := by
    rw [← h1, applyUpvote_createdBy]; exact hc
  simp only [upvoteTicket, if_neg hc1, Except.ok.injEq] at h2
  subst h1
  subst h2
  have hdown : (applyUpvote (applyUpvote t user.id) user.id).downvotes
      = removeVote t.downvotes user.id := by
    rw [applyUpvote_downvotes, if_neg (applyUpvote_not_down t user.id),
      applyUpvote_downvotes]
    by_cases hd : user.id ∈ t.downvotes
    · rw [if_pos hd]
    · rw [if_neg hd, removeVote_eq_self hd]
  refine ⟨?_, hdown, fun hnd => by rw [hdown, removeVote_eq_self hnd]⟩
  intro v
  by_cases hu : user.id ∈ t.upvotes
  · have e1 : (applyUpvote t user.id).upvotes = removeVote t.upvotes user.id := by
      rw [applyUpvote_upvotes, if_neg (by simpa using hu)]
    have e2 : (applyUpvote (applyUpvote t user.id) user.id).upvotes
        = removeVote t.upvotes user.id ++ [user.id] := by
      rw [applyUpvote_upvotes, e1, if_pos (self_not_mem_removeVote _ _)]
    rw [e2]
    simp only [List.mem_append, mem_removeVote, List.mem_singleton]
    by_cases hv : v = user.id
    · subst hv; simp [hu]
    · simp [hv]
  · have e1 : (applyUpvote t user.id).upvotes = t.upvotes ++ [user.id] := by
      rw [applyUpvote_upvotes, if_pos hu]
    have hmem : user.id ∈ (applyUpvote t user.id).upvotes := by
      rw [e1]; simp
    have e2 : (applyUpvote (applyUpvote t user.id) user.id).upvotes = t.upvotes := by
      rw [applyUpvote_upvotes, if_neg (by simpa using hmem), e1, removeVote_append,
        removeVote_eq_self hu]
      simp [removeVote]
    rw [e2]

/-- Witness for the amended C3 at a concrete input. -/
theorem upvote_twice_amended_witness :
    (∀ v, v ∈ demoTicketUp2.upvotes ↔ v ∈ demoTicket.upvotes) ∧
    demoTicketUp2.downvotes = removeVote demoTicket.downvotes carol.id ∧
    (carol.id ∉ demoTicket.downvotes → demoTicketUp2.downvotes = demoTicket.downvotes) :=
  upvote_twice_amended carol demoTicket demoTicketUp1 demoTicketUp2
    (by decide) rfl rfl

/-- C4 counterexample: the creator's vote on their own ticket is rejected with
HTTP status 400 (the validation-error class), not 403 (the forbidden class),
even for an admin creator. -/
theorem vote_own_ticket_cex :
    upvoteTicket alice demoTicket = .error (400, "You cannot upvote your own ticket") ∧
    downvoteTicket alice demoTicket = .error (400, "You cannot downvote your own ticket") ∧
    (400 : Nat) ≠ 403 := by
  refine ⟨rfl, rfl, ?_⟩
  decide

/-- C4 amended: a user voting on their own ticket is always rejected with status
400 and the fixed message, regardless of role, and the stored ticket (in
particular both vote lists) is unchanged. -/
theorem vote_own_ticket_rejected (user : User) (t : Ticket)
    (h : t.createdBy = user.id) :
    upvoteTicket user t = .error (400, "You cannot upvote your own ticket") ∧
    downvoteTicket user t = .error (400, "You cannot downvote your own ticket") ∧
    voteStep user t .up = t ∧ voteStep user t .down = t := by
  simp [upvoteTicket, downvoteTicket, voteStep, h]

/-- Witness for the amended C4 at a concrete input. -/
theorem vote_own_ticket_rejected_witness :
    upvoteTicket alice demoTicket = .error (400, "You cannot upvote your own ticket") ∧
    downvoteTicket alice demoTicket = .error (400, "You cannot downvote your own ticket") ∧
    voteStep alice demoTicket .up = demoTicket ∧ voteStep alice demoTicket .down = demoTicket :=
  vote_own_ticket_rejected alice demoTicket (by decide)

/-- The legal status strings checked by updateTicket (part_017 line 227). -/
def statusValues : List String := ["Open", "In Progress", "Resolved", "Closed"]

/-- User.findById over the user collection. -/
def findUser (users : List User) (uid : String) : Option User :=
  users.find? (fun u => u.id = uid)

/-- Category.findById over the category collection. -/
def findCategory (cats : List Category) (cid : String) : Option Category :=
  cats.find? (fun c => c.id = cid)

/-- The role test `req.user.role === 'support-agent' || req.user.role === 'admin'`. -/
def isAgentOrAdmin (r : Role) : Bool := r = .supportAgent || r = .admin

/-- The destructured request body of updateTicket (part_017 line 213).  `none`
models a field that is absent or falsy (the controller guards each field with a
truthiness check). -/
structure UpdateBody where
  status : Option String := none
  assignedTo : Option String := none
  description : Option String := none
  category : Option String := none
deriving DecidableEq, Repr

/-- The `updatedFields` object accumulated by updateTicket: a key is present
(`some`) exactly when the controller staged that field for the final
findByIdAndUpdate call. -/
structure UpdatedFields where
  status : Option String := none
  assignedTo : Option String := none
  category : Option String := none
  description : Option String := none
deriving DecidableEq, Repr

/-- The test `Object.keys(updatedFields).length === 0`. -/
def UpdatedFields.isEmpty (f : UpdatedFields) : Bool :=
  f.status.isNone && f.assignedTo.isNone && f.category.isNone && f.description.isNone

/-- Status staging (part_017 lines 227-231): staged only when the string is one
of the four legal values and differs from the current status; otherwise the
request's status value is silently ignored. -/
def stageStatus (t : Ticket) (body : UpdateBody) : Option String :=
  match body.status with
  | some s => if s ∈ statusValues ∧ s ≠ t.status then some s else none
  | none => none

/-- Assignee staging (part_017 lines 232-240): when a new assignee id is
supplied and differs from the current one, the referenced user must exist and
have role support-agent or admin, else the handler returns 400. -/
def stageAssignedTo (users : List User) (t : Ticket) (body : UpdateBody) :
    Except ErrResp (Option String) :=
  match body.assignedTo with
  | some a =>
    if some a ≠ t.assignedTo then
      match findUser users a with
      | none => .error (400, "Invalid agent ID or user is not an agent/admin")
      | some agent =>
        if agent.role ≠ Role.supportAgent ∧ agent.role ≠ Role.admin then
          .error (400, "Invalid agent ID or user is not an agent/admin")
        else
          .ok (some a)
    else
      .ok none
  | none => .ok none

/-- Category staging (part_017 lines 241-249): a changed category id must
reference an existing category, else the handler returns 400. -/
def stageCategoryVal (cats : List Category) (t : Ticket) (body : UpdateBody) :
    Except ErrResp (Option String) :=
  match body.category with
  | some c =>
    if c ≠ t.category then
      match findCategory cats c with
      | none => .error (400, "Invalid category ID")
      | some _ => .ok (some c)
    else
      .ok none
  | none => .ok none

/-- The agent/admin block of updateTicket (part_017 lines 226-250): status,
assignee and category are staged only for a support-agent or admin actor; an
assignee error aborts before the category check, and either error aborts before
anything is persisted. -/
def stageAgentFields (users : List User) (cats : List Category) (actor : User)
    (t : Ticket) (body : UpdateBody) : Except ErrResp UpdatedFields :=
  if isAgentOrAdmin actor.role then
    match stageAssignedTo users t body with
    | .error e => .error e
    | .ok aOpt =>
      match stageCategoryVal cats t body with
      | .error e => .error e
      | .ok cOpt =>
        .ok { status := stageStatus t body, assignedTo := aOpt, category := cOpt }
  else
    .ok {}

/-- The creator block of updateTicket (part_017 lines 253-258): only the
ticket's creator may stage a description change, regardless of role. -/
def stageDescription (actor : User) (t : Ticket) (body : UpdateBody) : Option String :=
  if t.createdBy = actor.id then
    match body.description with
    | some d => if d ≠ t.description then some d else none
    | none => none
  else
    none

/-- The final findByIdAndUpdate: exactly the staged keys are written. -/
def applyFields (t : Ticket) (f : UpdatedFields) : Ticket :=
  { t with
    status := f.status.getD t.status
    assignedTo := match f.assignedTo with
      | some a => some a
      | none => t.assignedTo
    category := f.category.getD t.category
    description := f.description.getD t.description }

/-- updateTicket (part_017 lines 212-308) for an existing ticket, returning the
updated document together with the `sendNotification` flag (true exactly when
some field was staged).  A non-creator whose request staged nothing receives
403 (line 261-263); the later isAllowedToUpdate check (lines 267-273) is kept
even though it can no longer fail at that point. -/
def updateTicketCore (users : List User) (cats : List Category) (actor : User)
    (t : Ticket) (body : UpdateBody) : Except ErrResp (Ticket × Bool) :=
  match stageAgentFields users cats actor t body with
  | .error e => .error e
  | .ok f =>
    let fFinal := { f with description := stageDescription actor t body }
    if t.createdBy = actor.id then
      .ok (applyFields t fFinal, !(fFinal.isEmpty))
    else if f.isEmpty then
      .error (403, "Not authorized to update this ticket or no valid fields to update")
    else if isAgentOrAdmin actor.role || t.createdBy = actor.id then
      .ok (applyFields t fFinal, !(fFinal.isEmpty))
    else
      .error (403, "You are not authorized to update this ticket.")

/-- The observable result of updateTicket: the response document (or the error
response; an error means the stored ticket was never written). -/
def updateTicket (users : List User) (cats : List Category) (actor : User)
    (t : Ticket) (body : UpdateBody) : Except ErrResp Ticket :=
  (updateTicketCore users cats actor t body).map Prod.fst

/-- A support agent used in the concrete instances below. -/
def bob : User := { id := "u3", username := "bob", email := "bob@example.com", role := .supportAgent }

/-- Concrete categories. -/
def hardwareCat : Category := { id := "c1", name := "Hardware" }

/-- Second concrete category, used as an update target. -/
def softwareCat : Category := { id := "c2", name := "Software" }

/-- The demo user collection. -/
def demoUsers : List User := [alice, carol, bob]

/-- The demo category collection. -/
def demoCats : List Category := [hardwareCat, softwareCat]

/-- A ticket created by carol (an end-user). -/
def carolTicket : Ticket :=
  { id := "t2", subject := "VPN issue", description := "No connection",
    category := "c1", createdBy := "u2", assignedTo := none, status := "Open",
    priority := "Low", comments := [], attachments := [], upvotes := [],
    downvotes := [], createdAt := 2, updatedAt := 2 }

/-- A ticket created by bob (a support-agent). -/
def bobTicket : Ticket :=
  { id := "t3", subject := "Broken chair", description := "Leg missing",
    category := "c1", createdBy := "u3", assignedTo := none, status := "Open",
    priority := "Low", comments := [], attachments := [], upvotes := [],
    downvotes := [], createdAt := 3, updatedAt := 3 }

theorem applyFields_empty (t : Ticket) : applyFields t {} = t := rfl

/-- C5: an update request by a support-agent or admin that sets assignedTo to a
missing user, or to a user who is neither support-agent nor admin, fails with
the 400 validation error before anything is persisted — in particular a status
or category supplied in the same request is not applied (no partial update). -/
theorem update_invalid_assignee_fails (users : List User) (cats : List Category)
    (actor : User) (t : Ticket) (body : UpdateBody) (a : String)
    (hrole : isAgentOrAdmin actor.role = true)
    (hbody : body.assignedTo = some a)
    (hchange : t.assignedTo ≠ some a)
    (hbad : ∀ u, findUser users a = some u →
      u.role ≠ Role.supportAgent ∧ u.role ≠ Role.admin) :
    updateTicket users cats actor t body
      = .error (400, "Invalid agent ID or user is not an agent/admin") := by
  have hstage : stageAssignedTo users t body
      = .error (400, "Invalid agent ID or user is not an agent/admin") := by
    simp only [stageAssignedTo, hbody]
    rw [if_pos (Ne.symm hchange)]
    cases hfind : findUser users a with
    | none => rfl
    | some u =>
      have hb := hbad u hfind
      simp [hb.1, hb.2]
  simp [updateTicket, updateTicketCore, stageAgentFields, hrole, hstage, Except.map]

/-- Witness for C5: bob (a support-agent) tries to assign carol's ticket to
carol, an end-user. -/
theorem update_invalid_assignee_fails_witness :
    updateTicket demoUsers demoCats bob carolTicket { assignedTo := some "u2" }
      = .error (400, "Invalid agent ID or user is not an agent/admin") :=
  update_invalid_assignee_fails demoUsers demoCats bob carolTicket
    { assignedTo := some "u2" } "u2" rfl rfl (by decide)
    (fun u hu => by
      have h' : carol = u := Option.some.inj hu
      subst h'
      exact ⟨by decide, by decide⟩)

/-- C7 counterexample: carol (an end-user) created `carolTicket`; her update
request with the valid, different category id "c2" succeeds but leaves the
category unchanged — the creator's category change is silently ignored because
the category branch runs only for support-agents and admins. -/
theorem creator_category_cex :
    updateTicket demoUsers demoCats carol carolTicket { category := some "c2" }
      = .ok carolTicket ∧
    carolTicket.category ≠ "c2" ∧
    findCategory demoCats "c2" = some softwareCat := by
  refine ⟨rfl, ?_, rfl⟩
  decide

/-- C7 amended: the ticket's creator can always change the description,
regardless of role; a supplied valid new category is applied only when the
creator is additionally a support-agent or admin, and is silently ignored (the
update still succeeding) when the creator is an end-user. -/
theorem creator_update_fields_amended (users : List User) (cats : List Category)
    (actor : User) (t : Ticket) (d c : String) (cat : Category)
    (hcr : t.createdBy = actor.id)
    (hd : d ≠ t.description)
    (hc : c ≠ t.category)
    (hfind : findCategory cats c = some cat) :
    updateTicket users cats actor t { description := some d }
      = .ok { t with description := d } ∧
    (isAgentOrAdmin actor.role = true →
      updateTicket users cats actor t { category := some c }
        = .ok { t with category := c }) ∧
    (actor.role = Role.endUser →
      updateTicket users cats actor t { category := some c } = .ok t) := by
  refine ⟨?_, fun hr => ?_, fun hr => ?_⟩
  · have hstage : stageAgentFields users cats actor t { description := some d } = .ok {} := by
      cases hrr : isAgentOrAdmin actor.role <;>
        simp [stageAgentFields, hrr, stageAssignedTo, stageCategoryVal, stageStatus]
    simp [updateTicket, updateTicketCore, hstage, stageDescription, hcr, hd,
      applyFields, Except.map]
  · have hstage : stageAgentFields users cats actor t { category := some c }
        = .ok { category := some c } := by
      simp [stageAgentFields, hr, stageAssignedTo, stageCategoryVal, stageStatus, hc, hfind]
    simp [updateTicket, updateTicketCore, hstage, stageDescription, hcr,
      applyFields, Except.map]
  · have hstage : stageAgentFields users cats actor t { category := some c } = .ok {} := by
      simp [stageAgentFields, isAgentOrAdmin, hr]
    simp [updateTicket, updateTicketCore, hstage, stageDescription, hcr,
      applyFields_empty, Except.map]

/-- Witness for the amended C7: bob is both a support-agent and the creator of
`bobTicket`, carol is the end-user creator of `carolTicket`. -/
theorem creator_update_fields_amended_witness :
    (updateTicket demoUsers demoCats bob bobTicket { description := some "nd" }
      = .ok { bobTicket with description := "nd" } ∧
    (isAgentOrAdmin bob.role = true →
      updateTicket demoUsers demoCats bob bobTicket { category := some "c2" }
        = .ok { bobTicket with category := "c2" }) ∧
    (bob.role = Role.endUser →
      updateTicket demoUsers demoCats bob bobTicket { category := some "c2" } = .ok bobTicket)) ∧
    (carol.role = Role.endUser →
      updateTicket demoUsers demoCats carol carolTicket { category := some "c2" } = .ok carolTicket) :=
  ⟨creator_update_fields_amended demoUsers demoCats bob bobTicket "nd" "c2" softwareCat
      rfl (by decide) (by decide) rfl,
   (creator_update_fields_amended demoUsers demoCats carol carolTicket "nd" "c2" softwareCat
      rfl (by decide) (by decide) rfl).2.2⟩

/-- C8 counterexample: bob is a support-agent but not the creator of
`carolTicket`; his update request staging no field is rejected with 403 instead
of succeeding as a no-op. -/
theorem noop_update_cex :
    updateTicket demoUsers demoCats bob carolTicket {}
      = .error (403, "Not authorized to update this ticket or no valid fields to update") := rfl

/-- C8 amended: an update request staging no recognized field (empty, or
supplying only the current values) is a no-op success for the ticket's creator,
but is rejected with 403 for any other actor, support-agent and admin included. -/
theorem noop_update_amended (users : List User) (cats : List Category)
    (actor : User) (t : Ticket) :
    (t.createdBy = actor.id →
      updateTicket users cats actor t {} = .ok t ∧
      updateTicket users cats actor t
        { status := some t.status, description := some t.description,
          category := some t.category } = .ok t) ∧
    (t.createdBy ≠ actor.id →
      updateTicket users cats actor t {}
        = .error (403, "Not authorized to update this ticket or no valid fields to update") ∧
      updateTicket users cats actor t
        { status := some t.status, description := some t.description,
          category := some t.category }
        = .error (403, "Not authorized to update this ticket or no valid fields to update")) := by
  have hstage0 : stageAgentFields users cats actor t {} = .ok {} := by
    cases hr : isAgentOrAdmin actor.role <;>
      simp [stageAgentFields, hr, stageAssignedTo, stageCategoryVal, stageStatus]
  have hstage1 : stageAgentFields users cats actor t
      { status := some t.status, description := some t.description,
        category := some t.category } = .ok {} := by
    cases hr : isAgentOrAdmin actor.role <;>
      simp [stageAgentFields, hr, stageAssignedTo, stageCategoryVal, stageStatus]
  constructor
  · intro hcr
    constructor
    · simp [updateTicket, updateTicketCore, hstage0, stageDescription,
        applyFields_empty, UpdatedFields.isEmpty, Except.map, hcr]
    · simp [updateTicket, updateTicketCore, hstage1, stageDescription,
        applyFields_empty, UpdatedFields.isEmpty, Except.map, hcr]
  · intro hncr
    constructor
    · simp [updateTicket, updateTicketCore, hstage0, stageDescription,
        applyFields_empty, UpdatedFields.isEmpty, Except.map, hncr]
    · simp [updateTicket, updateTicketCore, hstage1, stageDescription,
        applyFields_empty, UpdatedFields.isEmpty, Except.map, hncr]

/-- Witness for the amended C8: carol is the creator, bob is not. -/
theorem noop_update_amended_witness :
    (updateTicket demoUsers demoCats carol carolTicket {} = .ok carolTicket ∧
     updateTicket demoUsers demoCats carol carolTicket
       { status := some carolTicket.status, description := some carolTicket.description,
         category := some carolTicket.category } = .ok carolTicket) ∧
    (updateTicket demoUsers demoCats bob carolTicket {}
       = .error (403, "Not authorized to update this ticket or no valid fields to update") ∧
     updateTicket demoUsers demoCats bob carolTicket
       { status := some carolTicket.status, description := some carolTicket.description,
         category := some carolTicket.category }
       = .error (403, "Not authorized to update this ticket or no valid fields to update")) :=
  ⟨(noop_update_amended demoUsers demoCats carol carolTicket).1 rfl,
   (noop_update_amended demoUsers demoCats bob carolTicket).2 (by decide)⟩

theorem stageStatus_cases (t : Ticket) (body : UpdateBody) :
    stageStatus t body = none ∨ ∃ s, stageStatus t body = some s ∧ s ∈ statusValues := by
  unfold stageStatus
  cases hb : body.status with
  | none => exact Or.inl rfl
  | some s =>
    by_cases hcond : s ∈ statusValues ∧ s ≠ t.status
    · refine Or.inr ⟨s, ?_, hcond.1⟩
      show (if s ∈ statusValues ∧ s ≠ t.status then some s else none) = some s
      rw [if_pos hcond]
    · refine Or.inl ?_
      show (if s ∈ statusValues ∧ s ≠ t.status then some s else none) = none
      rw [if_neg hcond]

theorem updateTicketCore_ok {users : List User} {cats : List Category}
    {actor : User} {t : Ticket} {body : UpdateBody} {p : Ticket × Bool}
    (h : updateTicketCore users cats actor t body = .ok p) :
    ∃ f, stageAgentFields users cats actor t body = .ok f ∧
      p.1 = applyFields t { f with description := stageDescription actor t body } := by
  unfold updateTicketCore at h
  cases hst : stageAgentFields users cats actor t body with
  | error e => rw [hst] at h; exact Except.noConfusion h
  | ok f =>
    rw [hst] at h
    refine ⟨f, rfl, ?_⟩
    have h' : (if t.createdBy = actor.id then
        Except.ok (ε := ErrResp)
          (applyFields t { f with description := stageDescription actor t body },
           !(UpdatedFields.isEmpty { f with description := stageDescription actor t body }))
      else if f.isEmpty then
        Except.error (403, "Not authorized to update this ticket or no valid fields to update")
      else if isAgentOrAdmin actor.role || t.createdBy = actor.id then
        Except.ok
          (applyFields t { f with description := stageDescription actor t body },
           !(UpdatedFields.isEmpty { f with description := stageDescription actor t body }))
      else
        Except.error (403, "You are not authorized to update this ticket.")) = .ok p := h
    split at h'
    · cases h'; rfl
    · split at h'
      · exact Except.noConfusion h'
      · split at h'
        · cases h'; rfl
        · exact Except.noConfusion h'

theorem stageAgentFields_ok_status {users : List User} {cats : List Category}
    {actor : User} {t : Ticket} {body : UpdateBody} {f : UpdatedFields}
    (h : stageAgentFields users cats actor t body = .ok f) :
    f.status = none ∨
      ((∃ s, f.status = some s ∧ s ∈ statusValues) ∧ isAgentOrAdmin actor.role = true) := by
  unfold stageAgentFields at h
  by_cases hr : isAgentOrAdmin actor.role = true
  · rw [if_pos hr] at h
    cases ha : stageAssignedTo users t body with
    | error e => rw [ha] at h; exact Except.noConfusion h
    | ok aOpt =>
      rw [ha] at h
      cases hcv : stageCategoryVal cats t body with
      | error e => rw [hcv] at h; exact Except.noConfusion h
      | ok cOpt =>
        rw [hcv] at h
        have h' : Except.ok (ε := ErrResp)
            ({ status := stageStatus t body, assignedTo := aOpt, category := cOpt } : UpdatedFields)
            = .ok f := h
        cases h'
        rcases stageStatus_cases t body with h0 | ⟨s, hs, hmem⟩
        · exact Or.inl h0
        · exact Or.inr ⟨⟨s, hs, hmem⟩, hr⟩
  · rw [if_neg hr] at h
    have h' : Except.ok (ε := ErrResp) ({} : UpdatedFields) = .ok f := h
    cases h'
    exact Or.inl rfl

/-- C10: a successful updateTicket only ever writes status, assignedTo,
category and description; subject, createdBy, comments, attachments, upvotes,
downvotes (and identity/creation time) are never modified, and the status can
only have changed to one of the four legal values and only when the actor is a
support-agent or admin — any other supplied status value is silently ignored. -/
theorem updateTicket_frame (users : List User) (cats : List Category)
    (actor : User) (t : Ticket) (body : UpdateBody) (t' : Ticket)
    (h : updateTicket users cats actor t body = .ok t') :
    t'.id = t.id ∧ t'.subject = t.subject ∧ t'.createdBy = t.createdBy ∧
    t'.priority = t.priority ∧ t'.comments = t.comments ∧
    t'.attachments = t.attachments ∧ t'.upvotes = t.upvotes ∧
    t'.downvotes = t.downvotes ∧ t'.createdAt = t.createdAt ∧
    (t'.status = t.status ∨ (t'.status ∈ statusValues ∧ isAgentOrAdmin actor.role = true)) := by
  unfold updateTicket at h
  cases hcore : updateTicketCore users cats actor t body with
  | error e => rw [hcore] at h; exact Except.noConfusion h
  | ok p =>
    rw [hcore] at h
    have hp : Except.ok (ε := ErrResp) p.1 = .ok t' := h
    cases hp
    obtain ⟨f, hst, hres⟩ := updateTicketCore_ok hcore
    rw [hres]
    have hFstatus :
        ({ f with description := stageDescription actor t body } : UpdatedFields).status
          = f.status := rfl
    refine ⟨rfl, rfl, rfl, rfl, rfl, rfl, rfl, rfl, rfl, ?_⟩
    rcases stageAgentFields_ok_status hst with h0 | ⟨⟨s, hs, hmem⟩, hr⟩
    · left
      show Option.getD
        ({ f with description := stageDescription actor t body } : UpdatedFields).status
        t.status = t.status
      rw [hFstatus, h0]
      rfl
    · right
      refine ⟨?_, hr⟩
      show Option.getD
        ({ f with description := stageDescription actor t body } : UpdatedFields).status
        t.status ∈ statusValues
      rw [hFstatus, hs]
      exact hmem

/-- The result of carol's description update, used as the C10 witness input. -/
def carolTicketUpd : Ticket := { carolTicket with description := "nd" }

/-- Witness for C10 at a concrete input. -/
theorem updateTicket_frame_witness :
    carolTicketUpd.id = carolTicket.id ∧ carolTicketUpd.subject = carolTicket.subject ∧
    carolTicketUpd.createdBy = carolTicket.createdBy ∧
    carolTicketUpd.priority = carolTicket.priority ∧
    carolTicketUpd.comments = carolTicket.comments ∧
    carolTicketUpd.attachments = carolTicket.attachments ∧
    carolTicketUpd.upvotes = carolTicket.upvotes ∧
    carolTicketUpd.downvotes = carolTicket.downvotes ∧
    carolTicketUpd.createdAt = carolTicket.createdAt ∧
    (carolTicketUpd.status = carolTicket.status ∨
      (carolTicketUpd.status ∈ statusValues ∧ isAgentOrAdmin carol.role = true)) :=
  updateTicket_frame demoUsers demoCats carol carolTicket { description := some "nd" }
    carolTicketUpd rfl

/-- The reserved query keys excluded from filtering (part_017 line 27). -/
def removeFields : List String := ["select", "sort", "page", "limit", "search"]

/-- `delete queryStr[param]` on an association-list request query. -/
def deleteKey (q : List (String × String)) (k : String) : List (String × String) :=
  q.filter (fun kv => kv.1 ≠ k)

/-- Lines 27-28: remove each reserved key from the copied query object. -/
def stripReserved (q : List (String × String)) : List (String × String) :=
  removeFields.foldl deleteKey q

/-- Reading one key of `req.query`. -/
def qget (q : List (String × String)) (k : String) : Option String :=
  (q.find? (fun kv => kv.1 = k)).map (fun kv => kv.2)

/-- Evaluation of one field-equality condition of `Ticket.find(queryStr)`
against a ticket document: the scalar schema paths are compared against the
query value (ids are strings here; an unassigned ticket matches no assignedTo
condition); a key that is not such a path is dropped by the schema-strict query
cast, so it constrains nothing. -/
def fieldMatches (t : Ticket) (k v : String) : Bool :=
  match k with
  | "subject" => t.subject = v
  | "description" => t.description = v
  | "category" => t.category = v
  | "createdBy" => t.createdBy = v
  | "assignedTo" =>
    match t.assignedTo with
    | some a => a = v
    | none => false
  | "status" => t.status = v
  | "priority" => t.priority = v
  | _ => true

/-- `query.where(k).equals(v)`: sets the condition on path `k`, replacing any
condition on `k` coming from the query string. -/
def setCond (conds : List (String × String)) (k v : String) : List (String × String) :=
  (k, v) :: conds.filter (fun kv => kv.1 ≠ k)

/-- Role scoping of getTickets (lines 33-43): an end-user is restricted to
tickets they created; a support-agent is restricted to tickets assigned to
them exactly when the raw query carries my_tickets=true; an admin (and a
support-agent without the flag) is unrestricted. -/
def roleScopedConds (actor : User) (q : List (String × String)) :
    List (String × String) :=
  let conds := stripReserved q
  if actor.role = Role.endUser then
    setCond conds "createdBy" actor.id
  else if actor.role = Role.supportAgent then
    if qget q "my_tickets" = some "true" then
      setCond conds "assignedTo" actor.id
    else conds
  else conds

/-- Containment of `pat` in `hay` as a contiguous run. -/
def listInfix (pat : List Char) : List Char → Bool
  | [] => pat.isEmpty
  | c :: rest => pat.isPrefixOf (c :: rest) || listInfix pat rest

/-- Character-wise lower-casing (String.toLower, over the character list). -/
def lowerChars (cs : List Char) : List Char := cs.map Char.toLower

/-- The case-insensitive `$regex` search of lines 52-57, modelled for literal
search strings as case-insensitive substring containment. -/
def containsCI (hay pat : String) : Bool :=
  listInfix (lowerChars pat.toList) (lowerChars hay.toList)

/-- The `$or` search condition over subject and description (lines 52-57). -/
def matchesSearch (t : Ticket) (s : Option String) : Bool :=
  match s with
  | some pat => containsCI t.subject pat || containsCI t.description pat
  | none => true

/-- A ticket satisfies every field-equality condition. -/
def matchesConds (t : Ticket) (conds : List (String × String)) : Bool :=
  conds.all (fun kv => fieldMatches t kv.1 kv.2)

/-- Full match predicate of the getTickets query: the accumulated field
conditions (with role scoping) and the search condition. -/
def matchesQuery (actor : User) (q : List (String × String)) (t : Ticket) : Bool :=
  matchesConds t (roleScopedConds actor q) && matchesSearch t (qget q "search")

/-- Ordering on one sortable schema path; keys outside the modelled sortable
paths impose no order. -/
def cmpField (t1 t2 : Ticket) (k : String) : Ordering :=
  match k with
  | "createdAt" => compare t1.createdAt t2.createdAt
  | "updatedAt" => compare t1.updatedAt t2.updatedAt
  | "subject" => compare t1.subject t2.subject
  | "status" => compare t1.status t2.status
  | "priority" => compare t1.priority t2.priority
  | _ => Ordering.eq

/-- One mongoose sort key: a leading minus sign means descending. -/
def cmpKey (t1 t2 : Ticket) (k : String) : Ordering :=
  match k.toList with
  | '-' :: rest => (cmpField t1 t2 (String.mk rest)).swap
  | _ => cmpField t1 t2 k

/-- Lexicographic combination of the sort keys. -/
def cmpKeys (ks : List String) (t1 t2 : Ticket) : Ordering :=
  match ks with
  | [] => .eq
  | k :: rest =>
    match cmpKey t1 t2 k with
    | .eq => cmpKeys rest t1 t2
    | o => o

/-- Splitting a character list at commas (`sort.split(',')`). -/
def splitCommaAux (cur : List Char) : List Char → List (List Char)
  | [] => [cur.reverse]
  | c :: rest =>
    if c = ',' then cur.reverse :: splitCommaAux [] rest
    else splitCommaAux (c :: cur) rest

/-- Splitting a string at commas. -/
def splitComma (s : String) : List String :=
  (splitCommaAux [] s.toList).map String.mk

/-- Sort keys (lines 59-65): the comma-separated sort parameter, defaulting to
newest-first creation order. -/
def sortKeys (q : List (String × String)) : List String :=
  match qget q "sort" with
  | some s => splitComma s
  | none => ["-createdAt"]

/-- Ordered insertion for the stable sort below. -/
def insertLe (le : Ticket → Ticket → Bool) (x : Ticket) : List Ticket → List Ticket
  | [] => [x]
  | y :: ys => if le x y then x :: y :: ys else y :: insertLe le x ys

/-- Sort of the matched tickets by the requested keys (insertion sort; only the
membership of the result matters for the theorems below). -/
def sortTickets (le : Ticket → Ticket → Bool) (l : List Ticket) : List Ticket :=
  l.foldr (insertLe le) []

/-- `parseInt(x, 10) || dflt` (lines 68-69) for the page and limit parameters:
a missing or non-numeric value, and the falsy 0, fall back to the default
(negative inputs, which the database layer would reject, are modelled as parse
failures). -/
def parsePosInt (s : Option String) (dflt : Nat) : Nat :=
  match s with
  | some str =>
    match str.toNat? with
    | some 0 => dflt
    | some n => n
    | none => dflt
  | none => dflt

/-- getTickets (part_017 lines 22-101): strip the reserved keys, treat the
remaining keys as field-equality filters, apply the role scope and the
free-text search, sort, and paginate; returns the requested page together with
the total matching count.  Field selection and population (lines 46-49, 77-81)
shape the serialized fields of each returned document, not which documents are
returned, and are not modelled. -/
def getTickets (db : List Ticket) (actor : User) (q : List (String × String)) :
    List Ticket × Nat :=
  let matched := db.filter (matchesQuery actor q)
  let sorted := sortTickets (fun a b => cmpKeys (sortKeys q) a b ≠ Ordering.gt) matched
  let page := parsePosInt (qget q "page") 1
  let lim := parsePosInt (qget q "limit") 10
  ((sorted.drop ((page - 1) * lim)).take lim, matched.length)

theorem mem_insertLe {le : Ticket → Ticket → Bool} {x a : Ticket} :
    ∀ {l : List Ticket}, a ∈ insertLe le x l → a = x ∨ a ∈ l := by
  intro l
  induction l with
  | nil =>
    intro h
    simp [insertLe] at h
    exact Or.inl h
  | cons y ys ih =>
    intro h
    unfold insertLe at h
    by_cases hc : le x y = true
    · rw [if_pos hc] at h
      rcases List.mem_cons.mp h with h1 | h2
      · exact Or.inl h1
      · exact Or.inr h2
    · rw [if_neg hc] at h
      rcases List.mem_cons.mp h with h1 | h2
      · exact Or.inr (h1 ▸ List.mem_cons_self y ys)
      · rcases ih h2 with h3 | h4
        · exact Or.inl h3
        · exact Or.inr (List.mem_cons_of_mem y h4)

theorem mem_sortTickets {le : Ticket → Ticket → Bool} {a : Ticket} :
    ∀ {l : List Ticket}, a ∈ sortTickets le l → a ∈ l := by
  intro l
  induction l with
  | nil =>
    intro h
    exact absurd h (by simp [sortTickets])
  | cons y ys ih =>
    intro h
    have h' : a ∈ insertLe le y (sortTickets le ys) := h
    rcases mem_insertLe h' with h1 | h2
    · exact h1 ▸ List.mem_cons_self y ys
    · exact List.mem_cons_of_mem y (ih h2)

theorem getTickets_mem {db : List Ticket} {actor : User}
    {q : List (String × String)} {t : Ticket}
    (h : t ∈ (getTickets db actor q).1) :
    t ∈ db ∧ matchesQuery actor q t = true := by
  simp only [getTickets] at h
  have h2 := mem_sortTickets (List.drop_subset _ _ (List.take_subset _ _ h))
  exact List.mem_filter.mp h2

theorem fieldMatches_createdBy {t : Ticket} {v : String}
    (h : fieldMatches t "createdBy" v = true) : t.createdBy = v := by
  have h' : (decide (t.createdBy = v)) = true := h
  exact of_decide_eq_true h'

theorem fieldMatches_assignedTo {t : Ticket} {v : String}
    (h : fieldMatches t "assignedTo" v = true) : t.assignedTo = some v := by
  have h' : (match t.assignedTo with
    | some a => decide (a = v)
    | none => false) = true := h
  cases ha : t.assignedTo with
  | none => rw [ha] at h'; exact absurd h' (by simp)
  | some a =>
    rw [ha] at h'
    simp only [decide_eq_true_eq] at h'
    rw [h']

/-- C2: an end-user's GET /tickets request never returns a ticket created by
another user, for every combination of query parameters. -/
theorem getTickets_endUser_only_own (db : List Ticket) (actor : User)
    (q : List (String × String)) (hrole : actor.role = Role.endUser) :
    ∀ t ∈ (getTickets db actor q).1, t.createdBy = actor.id := by
  intro t ht
  have hm := (getTickets_mem ht).2
  unfold matchesQuery at hm
  rw [Bool.and_eq_true] at hm
  have hconds := hm.1
  unfold roleScopedConds at hconds
  rw [if_pos hrole] at hconds
  have hhead := List.all_eq_true.mp hconds ("createdBy", actor.id) (by simp [setCond])
  exact fieldMatches_createdBy hhead

/-- Larger demo collection: a ticket assigned to the agent bob. -/
def assignedTicket : Ticket :=
  { id := "t4", subject := "Email down", description := "SMTP error",
    category := "c1", createdBy := "u2", assignedTo := some "u3", status := "Open",
    priority := "Low", comments := [], attachments := [], upvotes := [],
    downvotes := [], createdAt := 4, updatedAt := 4 }

/-- The demo ticket collection. -/
def demoDb : List Ticket := [demoTicket, carolTicket, bobTicket, assignedTicket]

/-- Witness for C2 at a concrete input: carol's listing contains her ticket,
and the theorem forces its creator to be carol. -/
theorem getTickets_endUser_only_own_witness : carolTicket.createdBy = carol.id :=
  getTickets_endUser_only_own demoDb carol [] rfl carolTicket (by decide)

/-- C6: for a support-agent whose request carries my_tickets=true, every
returned ticket is assigned to that agent; and exactly the reserved query keys
select, sort, page, limit and search are stripped from the query before the
remaining keys act as field-equality filters. -/
theorem getTickets_myTickets_and_reserved (db : List Ticket) (actor : User)
    (q : List (String × String)) :
    (actor.role = Role.supportAgent → qget q "my_tickets" = some "true" →
      ∀ t ∈ (getTickets db actor q).1, t.assignedTo = some actor.id) ∧
    (∀ kv, kv ∈ stripReserved q ↔
      kv ∈ q ∧ kv.1 ∉ (["select", "sort", "page", "limit", "search"] : List String)) := by
  constructor
  · intro hrole hmy t ht
    have hm := (getTickets_mem ht).2
    unfold matchesQuery at hm
    rw [Bool.and_eq_true] at hm
    have hconds := hm.1
    unfold roleScopedConds at hconds
    rw [if_neg (by simp [hrole]), if_pos hrole, if_pos hmy] at hconds
    have hhead := List.all_eq_true.mp hconds ("assignedTo", actor.id) (by simp [setCond])
    exact fieldMatches_assignedTo hhead
  · intro kv
    simp only [stripReserved, removeFields, List.foldl_cons, List.foldl_nil, deleteKey,
      List.mem_filter, decide_eq_true_eq, List.mem_cons, List.mem_singleton,
      List.not_mem_nil]
    tauto

/-- A demo query carrying a filter, a sort key and the my_tickets flag. -/
def demoQuery : List (String × String) :=
  [("status", "Open"), ("sort", "createdAt"), ("my_tickets", "true")]

/-- Witness for C6 at a concrete input. -/
theorem getTickets_myTickets_and_reserved_witness :
    assignedTicket.assignedTo = some bob.id ∧
    (("sort", "createdAt") ∈ stripReserved demoQuery ↔
      (("sort", "createdAt") ∈ demoQuery ∧
        ("sort", "createdAt").1 ∉ (["select", "sort", "page", "limit", "search"] : List String))) :=
  ⟨(getTickets_myTickets_and_reserved demoDb bob demoQuery).1 rfl rfl
      assignedTicket (by decide),
   (getTickets_myTickets_and_reserved demoDb bob demoQuery).2 ("sort", "createdAt")⟩

/-- sendEmail (server/services/emailService.js lines 43-55): the call to
transporter.sendMail is wrapped in try/catch; a transport failure is logged and
swallowed, so the service always returns normally to its caller.  `transport`
is the outcome the mail transport produces; the result is the console output,
in the caller's error monad — always a success. -/
def sendEmail (transport : Except String Unit) : Except ErrResp (List String) :=
  match transport with
  | .ok _ => .ok ["Message sent"]
  | .error e => .ok ["Error sending email: " ++ e]

/-- createTicket (part_017 lines 140-202) after the upload middleware: subject,
description and category are all required (a falsy value is `none`), the
category must exist, and the new ticket starts Open, unassigned, with empty
comment and vote lists.  `freshId` and `now` stand for the generated document
id and the clock. -/
def createTicket (cats : List Category) (actor : User)
    (subject descr : Option String) (category : Option String)
    (attachments : List String) (freshId : String) (now : Nat) :
    Except ErrResp Ticket :=
  match subject, descr, category with
  | some s, some d, some c =>
    match findCategory cats c with
    | none => .error (400, "Invalid category ID")
    | some _ =>
      .ok { id := freshId, subject := s, description := d, category := c,
            createdBy := actor.id, assignedTo := none, status := "Open",
            priority := "Low", comments := [], attachments := attachments,
            upvotes := [], downvotes := [], createdAt := now, updatedAt := now }
  | _, _, _ => .error (400, "Please provide subject, description, and category")

/-- The record-level comment authorization of addComment (part_017 lines
334-340): creator, assigned agent, or admin. -/
def canComment (actor : User) (t : Ticket) : Bool :=
  t.createdBy = actor.id ||
  (match t.assignedTo with
   | some a => a = actor.id
   | none => false) ||
  actor.role = Role.admin

/-- addComment (part_017 lines 318-387) for an existing ticket: empty or
whitespace-only text is rejected with 400, unauthorized viewers with 403, and
otherwise the comment is appended to the ticket. -/
def addComment (actor : User) (t : Ticket) (text : String) (now : Nat) :
    Except ErrResp Ticket :=
  if text.trim = "" then
    .error (400, "Comment text cannot be empty")
  else if !(canComment actor t) then
    .error (403, "Not authorized to comment on this ticket")
  else
    .ok { t with comments :=
      t.comments ++ [{ text := text, commentedBy := actor.id, createdAt := now }] }

/-- Recipients of the new-ticket mail (lines 180-183): every admin and
support-agent. -/
def createRecipients (users : List User) : List String :=
  (users.filter (fun u => isAgentOrAdmin u.role)).map (fun u => u.email)

/-- Recipient set of the new-comment mail (lines 359-369): the creator and the
assignee, each skipped when they are the commenter, deduplicated. -/
def commentRecipients (users : List User) (actor : User) (t : Ticket) : List String :=
  let creatorEmail := (findUser users t.createdBy).map (fun u => u.email)
  let agentEmail := match t.assignedTo with
    | some a => (findUser users a).map (fun u => u.email)
    | none => none
  let l1 := match creatorEmail with
    | some e => if e ≠ actor.email then [e] else []
    | none => []
  match agentEmail with
  | some e => if e ≠ actor.email ∧ e ∉ l1 then l1 ++ [e] else l1
  | none => l1

/-- createTicket followed by its notification dispatch (lines 179-198): the
mail goes out when any admin or agent exists. -/
def createTicketWithNotify (users : List User) (cats : List Category) (actor : User)
    (subject descr category : Option String) (attachments : List String)
    (freshId : String) (now : Nat) (transport : Except String Unit) :
    Except ErrResp (Ticket × List String) :=
  match createTicket cats actor subject descr category attachments freshId now with
  | .error e => .error e
  | .ok t =>
    match (if (createRecipients users).length > 0 then sendEmail transport else .ok []) with
    | .error e => .error e
    | .ok log => .ok (t, log)

/-- updateTicket followed by its notification dispatch (lines 284-305): the
mail goes out when some field was staged (the sendNotification flag of the
controller, the Boolean of `updateTicketCore`). -/
def updateTicketWithNotify (users : List User) (cats : List Category) (actor : User)
    (t : Ticket) (body : UpdateBody) (transport : Except String Unit) :
    Except ErrResp (Ticket × List String) :=
  match updateTicketCore users cats actor t body with
  | .error e => .error e
  | .ok p =>
    match (if p.2 then sendEmail transport else .ok []) with
    | .error e => .error e
    | .ok log => .ok (p.1, log)

/-- addComment followed by its notification dispatch (lines 359-384). -/
def addCommentWithNotify (users : List User) (actor : User) (t : Ticket)
    (text : String) (now : Nat) (transport : Except String Unit) :
    Except ErrResp (Ticket × List String) :=
  match addComment actor t text now with
  | .error e => .error e
  | .ok t' =>
    match (if (commentRecipients users actor t).length > 0 then sendEmail transport
      else .ok []) with
    | .error e => .error e
    | .ok log => .ok (t', log)

/-- C9: sendEmail never propagates a failure, and consequently ticket creation,
ticket update and comment addition report the mutation outcome to the caller
independently of the email transport outcome: each operation with notification
dispatch projects to exactly the plain mutation result, for every transport
outcome — a mail failure neither turns a successful mutation into an error nor
rolls it back. -/
theorem mutation_independent_of_email (users : List User) (cats : List Category)
    (actor : User) (t : Ticket) (body : UpdateBody)
    (subject descr category : Option String) (attachments : List String)
    (freshId : String) (text : String) (now : Nat)
    (transport : Except String Unit) :
    (∀ o : Except String Unit, ∃ log, sendEmail o = .ok log) ∧
    (createTicketWithNotify users cats actor subject descr category attachments
        freshId now transport).map Prod.fst
      = createTicket cats actor subject descr category attachments freshId now ∧
    (updateTicketWithNotify users cats actor t body transport).map Prod.fst
      = updateTicket users cats actor t body ∧
    (addCommentWithNotify users actor t text now transport).map Prod.fst
      = addComment actor t text now := by
  refine ⟨fun o => ?_, ?_, ?_, ?_⟩
  · cases o <;> exact ⟨_, rfl⟩
  · unfold createTicketWithNotify
    cases hc : createTicket cats actor subject descr category attachments freshId now with
    | error e => rfl
    | ok t0 =>
      cases transport <;> by_cases hr : (createRecipients users).length > 0 <;>
        simp [sendEmail, hr, Except.map]
  · unfold updateTicketWithNotify updateTicket
    cases hc : updateTicketCore users cats actor t body with
    | error e => rfl
    | ok p =>
      cases transport <;> by_cases hr : p.2 = true <;>
        simp [sendEmail, hr, Except.map]
  · unfold addCommentWithNotify
    cases hc : addComment actor t text now with
    | error e => rfl
    | ok t1 =>
      cases transport <;> by_cases hr : (commentRecipients users actor t).length > 0 <;>
        simp [sendEmail, hr, Except.map]

end QuickDesk
